import Mathlib

/-!
# Verification of the checkout relay (`server.js` and its earlier revision)

Shallow embedding of the settlement-reconciliation webhook handler and the
checkout-session creation endpoint of the repository, together with proofs of
the spec's testable properties.

The two source revisions embedded here:
* `src/server.js` — current revision (guards: orderId parse first, then mode,
  then payment status; catch block answers 400 when the error message contains
  "No signatures found", otherwise 500);
* `src/unnamed/part_000` — earlier revision (guards: mode first, then payment
  status, then orderId parse; catch block always answers 500).

External collaborators (the WooCommerce order backend and the Stripe SDK's
`constructEvent` signature verification) are modelled as explicit inputs: the
backend as a pair of response functions, and the verification result as the
`Except` value that `stripe.webhooks.constructEvent` produces (an event on
success, a thrown error message on failure).
-/

namespace Checkout

/-! ## JavaScript `parseInt(s, 10)`

`parseInt` skips leading whitespace, accepts an optional sign, and reads the
longest prefix of decimal digits; if there is none the result is `NaN`
(modelled as `none`).  Numbers are modelled exactly as integers. -/

def jsWhitespace (c : Char) : Bool :=
  c = ' ' ∨ c = '\t' ∨ c = '\n' ∨ c = '\r'

def digitsToNat (cs : List Char) : Nat :=
  cs.foldl (fun a c => 10 * a + (c.toNat - 48)) 0

def parseInt10 (s : String) : Option Int :=
  let cs := s.data.dropWhile jsWhitespace
  let signed : Bool × List Char :=
    match cs with
    | '-' :: r => (true, r)
    | '+' :: r => (false, r)
    | r => (false, r)
  let ds := signed.2.takeWhile Char.isDigit
  if ds.isEmpty then none
  else some (if signed.1 then -(digitsToNat ds : Int) else (digitsToNat ds : Int))

/-- JavaScript `hay.includes(needle)`. -/
def strIncludes (hay needle : String) : Bool :=
  decide (List.IsInfix needle.data hay.data)

/-! ## Data model of the webhook handler -/

/-- The fields of `event.data.object` (a Stripe Checkout session) that the
handler reads. -/
structure Session where
  client_reference_id : String
  mode : String
  payment_status : String
deriving DecidableEq, Repr

/-- The fields of the verified Stripe event that the handler reads:
`event.type` and `event.data.object`. -/
structure StripeEvent where
  type : String
  data_object : Session
deriving DecidableEq, Repr

/-- Response of the order backend to `GET /orders/:id`: either an HTTP error
(`r.ok` false, carrying the status code and the response body text), or
success carrying the order's `status` field (`none` when the field is absent;
the handler coerces it with `String(cur.status || '')`). -/
inductive FetchResult where
  | ok (status : Option String)
  | httpError (code : Nat) (body : String)
deriving DecidableEq, Repr

/-- Response of the order backend to `PUT /orders/:id`: success or an HTTP
error with status code and body text. -/
inductive PutResult where
  | putOk
  | putError (code : Nat) (body : String)
deriving DecidableEq, Repr

/-- The external WooCommerce order backend, as the two response functions the
handler can exercise. -/
structure WooBackend where
  getOrder : Int → FetchResult
  putStatus : Int → String → PutResult

/-- `wcGetOrder`: on a non-ok HTTP response it throws an `Error` whose message
embeds the order id, the HTTP status and up to 200 characters of the body
(`Woo GET ${orderId} failed: ${r.status} ${t.slice(0, 200)}`). -/
def wcGetOrder (b : WooBackend) (orderId : Int) : Except String (Option String) :=
  match b.getOrder orderId with
  | .ok st => .ok st
  | .httpError code body =>
      .error ("Woo GET " ++ toString orderId ++ " failed: " ++ toString code ++ " " ++ body.take 200)

/-- `wcUpdateOrderStatus`: on a non-ok HTTP response it throws an `Error`
whose message is `Woo PUT ${orderId} failed: ${r.status} ${t.slice(0, 200)}`. -/
def wcUpdateOrderStatus (b : WooBackend) (orderId : Int) (status : String) : Except String Unit :=
  match b.putStatus orderId status with
  | .putOk => .ok ()
  | .putError code body =>
      .error ("Woo PUT " ++ toString orderId ++ " failed: " ++ toString code ++ " " ++ body.take 200)

/-- The HTTP answer sent back to Stripe: `res.json({ received: true })`
(HTTP 200) or `res.status(code).send("Webhook Error: " + err.message)`. -/
inductive WebhookResponse where
  | received
  | errorStatus (code : Nat) (body : String)
deriving DecidableEq, Repr

/-- Observable behaviour of one webhook delivery: the HTTP response, the list
of order ids fetched (`wcGetOrder` calls issued), the list of
`(orderId, status)` updates issued (`wcUpdateOrderStatus` calls, recorded even
when the backend rejects them), and the `console.log` lines. -/
structure HandlerResult where
  response : WebhookResponse
  gets : List Int
  puts : List (Int × String)
  logs : List String
deriving DecidableEq, Repr

/-- `server.js` catch block: `String(err?.message || '').includes('No
signatures found') ? 400 : 500`. -/
def webhookErrorCode (msg : String) : Nat :=
  if strIncludes msg "No signatures found" then 400 else 500

/-- The body of the `checkout.session.completed` case after all guards have
passed (identical text in both revisions): read the order, skip when already
`processing`/`completed`, otherwise update to `processing`.  The error-code
policy of the enclosing catch block is passed in (`webhookErrorCode` for
`server.js`, constantly 500 for `part_000`). -/
def completedCore (errorCodeOf : String → Nat) (b : WooBackend) (orderId : Int) :
    HandlerResult :=
  match wcGetOrder b orderId with
  | .error msg =>
      { response := .errorStatus (errorCodeOf msg) ("Webhook Error: " ++ msg),
        gets := [orderId], puts := [], logs := [] }
  | .ok st =>
      let curStatus := st.getD ""
      if curStatus = "processing" ∨ curStatus = "completed" then
        { response := .received, gets := [orderId], puts := [],
          logs := ["[Webhook] order " ++ toString orderId ++ " already " ++ curStatus] }
      else
        match wcUpdateOrderStatus b orderId "processing" with
        | .error msg =>
            { response := .errorStatus (errorCodeOf msg) ("Webhook Error: " ++ msg),
              gets := [orderId], puts := [(orderId, "processing")], logs := [] }
        | .ok _ =>
            { response := .received, gets := [orderId], puts := [(orderId, "processing")],
              logs := ["[Webhook] order " ++ toString orderId ++ " -> processing"] }

/-- The `POST /webhooks/stripe` handler of `src/server.js`, as a function of
the result of `stripe.webhooks.constructEvent` (`.error msg` when verification
throws) and of the order backend.  Guard order in the completed case: parsed
`orderId` truthiness first, then `mode`, then `payment_status`. -/
def handleStripeWebhook (constructResult : Except String StripeEvent) (b : WooBackend) :
    HandlerResult :=
  match constructResult with
  | .error msg =>
      { response := .errorStatus (webhookErrorCode msg) ("Webhook Error: " ++ msg),
        gets := [], puts := [], logs := [] }
  | .ok event =>
      if event.type = "checkout.session.completed" then
        let s := event.data_object
        match parseInt10 s.client_reference_id with
        | none => { response := .received, gets := [], puts := [], logs := [] }
        | some orderId =>
            if orderId = 0 then
              { response := .received, gets := [], puts := [], logs := [] }
            else if s.mode ≠ "payment" then
              { response := .received, gets := [], puts := [], logs := [] }
            else if s.payment_status ≠ "paid" then
              { response := .received, gets := [], puts := [], logs := [] }
            else
              completedCore webhookErrorCode b orderId
      else if event.type = "checkout.session.expired" then
        { response := .received, gets := [], puts := [],
          logs := ["[Webhook] expired order: " ++ event.data_object.client_reference_id] }
      else
        { response := .received, gets := [], puts := [], logs := [] }

/-- The `POST /webhooks/stripe` handler of the earlier revision
`src/unnamed/part_000`.  Guard order in the completed case: `mode` first, then
`payment_status`, then parsed `orderId` truthiness; its catch block always
answers HTTP 500. -/
def handleStripeWebhookV0 (constructResult : Except String StripeEvent) (b : WooBackend) :
    HandlerResult :=
  match constructResult with
  | .error msg =>
      { response := .errorStatus 500 ("Webhook Error: " ++ msg),
        gets := [], puts := [], logs := [] }
  | .ok event =>
      if event.type = "checkout.session.completed" then
        let s := event.data_object
        if s.mode ≠ "payment" then
          { response := .received, gets := [], puts := [], logs := [] }
        else if s.payment_status ≠ "paid" then
          { response := .received, gets := [], puts := [], logs := [] }
        else
          match parseInt10 s.client_reference_id with
          | none => { response := .received, gets := [], puts := [], logs := [] }
          | some orderId =>
              if orderId = 0 then
                { response := .received, gets := [], puts := [], logs := [] }
              else
                completedCore (fun _ => 500) b orderId
      else if event.type = "checkout.session.expired" then
        { response := .received, gets := [], puts := [],
          logs := ["[Webhook] expired order: " ++ event.data_object.client_reference_id] }
      else
        { response := .received, gets := [], puts := [], logs := [] }

/-! ## The spec's `ReconcileOutcome`, read off the observable behaviour -/

/-- The spec's outcome vocabulary for `handleEvent`. -/
inductive ReconcileOutcome where
  | Settled
  | AlreadySettled
  | Ignored
  | Noted
  | ReconciliationFailed
  | SignatureInvalid
deriving DecidableEq, Repr

def isExpiredLog (l : String) : Bool :=
  strIncludes l "[Webhook] expired order:"

/-- Classify one delivery's observable behaviour as the spec's
`ReconcileOutcome`: an error answer before any backend call is a signature
failure; an error answer after a backend call is a reconciliation failure; a
success answer is `Settled` when an update was issued, `AlreadySettled` when
only a read was, `Noted` on the expired log line, and `Ignored` otherwise. -/
def outcome (r : HandlerResult) : ReconcileOutcome :=
  match r.response with
  | .received =>
      if r.puts ≠ [] then .Settled
      else if r.gets ≠ [] then .AlreadySettled
      else if r.logs.any isExpiredLog then .Noted
      else .Ignored
  | .errorStatus _ _ =>
      if r.gets.isEmpty then .SignatureInvalid else .ReconciliationFailed

/-- A 4xx answer (permanent rejection: the provider does not redeliver). -/
def isClientError (r : WebhookResponse) : Bool :=
  match r with
  | .received => false
  | .errorStatus c _ => 400 ≤ c ∧ c < 500

/-- A 5xx answer (transient failure: the provider redelivers later). -/
def isServerError (r : WebhookResponse) : Bool :=
  match r with
  | .received => false
  | .errorStatus c _ => 500 ≤ c ∧ c < 600

/-- The response with its HTTP status code erased (used to state that the two
revisions agree on everything except the code chosen on the error path). -/
def sansCode (r : WebhookResponse) : Option String :=
  match r with
  | .received => none
  | .errorStatus _ m => some m

/-! ## `POST /api/create-checkout` (`src/server.js`)

The handler destructures `{ orderId, amountJpy }` from the JSON body, parses
`orderId` with `parseInt(orderId, 10)`, rejects when the parse is falsy or not
an integer, rejects when `amountJpy` is not a positive integer
(`!Number.isInteger(amountJpy) || amountJpy <= 0`), and otherwise issues one
call to `stripe.checkout.sessions.create` with `idempotencyKey:
"order-" + id`. -/

/-- The JSON body of the request.  `orderId` is the value fed to `parseInt`
(JSON numbers are coerced to their decimal string there).  `amountJpy` is a JS
number, of which the source only tests `Number.isInteger` and `<= 0`: it is
modelled as `some k` for an integer-valued number `k` and `none` for a
non-integer number. -/
structure CreateCheckoutBody where
  orderId : String
  amountJpy : Option Int
deriving DecidableEq, Repr

/-- The argument object passed to `stripe.checkout.sessions.create`. -/
structure CheckoutParams where
  mode : String
  currency : String
  product_name : String
  unit_amount : Int
  quantity : Nat
  success_url : String
  cancel_url : String
  client_reference_id : String
deriving DecidableEq, Repr

/-- What the `/api/create-checkout` handler does with a request, up to (and
including) the single outbound provider call: reject it, or call
`stripe.checkout.sessions.create(params, { idempotencyKey })`. -/
inductive CreateCheckoutResult where
  | unauthorized
  | invalidOrderId
  | invalidAmount
  | stripeCall (params : CheckoutParams) (idempotencyKey : String)
deriving DecidableEq, Repr

/-- Whether the handler reached the outbound provider call. -/
def isStripeCall (r : CreateCheckoutResult) : Bool :=
  match r with
  | .stripeCall _ _ => true
  | _ => false

/-- The `POST /api/create-checkout` handler of `src/server.js`.  `apiKeyOk`
is the result of comparing the `x-api-key` header with the configured
internal key; `appBase` is the configured `APP_BASE_URL`. -/
def createCheckout (apiKeyOk : Bool) (appBase : String) (body : CreateCheckoutBody) :
    CreateCheckoutResult :=
  if !apiKeyOk then .unauthorized
  else
    match parseInt10 body.orderId with
    | none => .invalidOrderId
    | some id =>
        if id = 0 then .invalidOrderId
        else
          match body.amountJpy with
          | none => .invalidAmount
          | some a =>
              if a ≤ 0 then .invalidAmount
              else
                .stripeCall
                  { mode := "payment"
                    currency := "jpy"
                    product_name := "Order #" ++ toString id
                    unit_amount := a
                    quantity := 1
                    success_url := appBase ++ "/payment/success?order=" ++ toString id ++
                      "&cs=\x7bCHECKOUT_SESSION_ID\x7d"
                    cancel_url := appBase ++ "/payment/cancel?order=" ++ toString id
                    client_reference_id := toString id }
                  ("order-" ++ toString id)

/-! ## Concrete backends used by witnesses and counterexamples -/

/-- A healthy backend: order 7 is already `processing`, every other order is
`pending`, and updates succeed. -/
def demoBackend : WooBackend where
  getOrder := fun i => if i = 7 then .ok (some "processing") else .ok (some "pending")
  putStatus := fun _ _ => .putOk

/-- A backend whose reads fail with a benign error body. -/
def downBackend : WooBackend where
  getOrder := fun _ => .httpError 503 "Service Unavailable"
  putStatus := fun _ _ => .putError 503 "Service Unavailable"

/-- A backend whose reads fail with an error body that happens to contain the
substring `No signatures found`. -/
def poisonBackend : WooBackend where
  getOrder := fun _ => .httpError 502 "No signatures found"
  putStatus := fun _ _ => .putError 502 "No signatures found"

/-! ## Claim theorems -/

/-- C1: replay idempotence of reconciliation — for every verified `Completed`
event with mode `payment` and payment status `paid` whose correlation token
parses to a positive `orderId` naming an order whose current backend status is
`processing` or `completed`, the handler's outcome is `AlreadySettled` and no
write to the order backend is issued. -/
theorem replay_idempotent (s : Session) (b : WooBackend) (n : Int) (st : Option String)
    (hp : parseInt10 s.client_reference_id = some n) (hn : 0 < n)
    (hm : s.mode = "payment") (hps : s.payment_status = "paid")
    (hg : b.getOrder n = .ok st)
    (hst : st.getD "" = "processing" ∨ st.getD "" = "completed") :
    outcome (handleStripeWebhook (.ok ⟨"checkout.session.completed", s⟩) b) =
      .AlreadySettled ∧
    (handleStripeWebhook (.ok ⟨"checkout.session.completed", s⟩) b).puts = [] := by
  have hne : n ≠ 0 := by omega
  simp only [handleStripeWebhook, hp, hm, hps, completedCore, wcGetOrder, hg,
    if_pos rfl, hne, if_neg hne, ne_eq, not_true_eq_false, if_false, if_pos hst]
  simp [outcome]

/-- Witness for C1 at a concrete input. -/
theorem replay_idempotent_witness :
    outcome (handleStripeWebhook
      (.ok ⟨"checkout.session.completed", ⟨"7", "payment", "paid"⟩⟩) demoBackend) =
      .AlreadySettled ∧
    (handleStripeWebhook
      (.ok ⟨"checkout.session.completed", ⟨"7", "payment", "paid"⟩⟩) demoBackend).puts = [] :=
  replay_idempotent ⟨"7", "payment", "paid"⟩ demoBackend 7 (some "processing")
    (by decide) (by decide) rfl rfl (by decide) (Or.inl rfl)

/-- C2: settlement postcondition — for every verified `Completed` event with
mode `payment`, payment status `paid` and a positive parsed `orderId` whose
order's current backend status is neither `processing` nor `completed`, the
handler issues exactly one status update, setting the order's status to
`processing`, and the outcome is `Settled` (the backend accepting the
update, as claim C5 governs the failure path). -/
theorem settlement_postcondition (s : Session) (b : WooBackend) (n : Int) (st : Option String)
    (hp : parseInt10 s.client_reference_id = some n) (hn : 0 < n)
    (hm : s.mode = "payment") (hps : s.payment_status = "paid")
    (hg : b.getOrder n = .ok st)
    (h1 : st.getD "" ≠ "processing") (h2 : st.getD "" ≠ "completed")
    (hw : b.putStatus n "processing" = .putOk) :
    outcome (handleStripeWebhook (.ok ⟨"checkout.session.completed", s⟩) b) = .Settled ∧
    (handleStripeWebhook (.ok ⟨"checkout.session.completed", s⟩) b).puts =
      [(n, "processing")] := by
  have hne : n ≠ 0 := by omega
  have hnor : ¬(st.getD "" = "processing" ∨ st.getD "" = "completed") := by
    simp [h1, h2]
  simp only [handleStripeWebhook, hp, hm, hps, completedCore, wcGetOrder, hg,
    wcUpdateOrderStatus, hw, if_pos rfl, hne, if_neg hne, ne_eq, not_true_eq_false,
    if_false, if_neg hnor]
  simp [outcome]

/-- Witness for C2 at a concrete input. -/
theorem settlement_postcondition_witness :
    outcome (handleStripeWebhook
      (.ok ⟨"checkout.session.completed", ⟨"8", "payment", "paid"⟩⟩) demoBackend) = .Settled ∧
    (handleStripeWebhook
      (.ok ⟨"checkout.session.completed", ⟨"8", "payment", "paid"⟩⟩) demoBackend).puts =
      [(8, "processing")] :=
  settlement_postcondition ⟨"8", "payment", "paid"⟩ demoBackend 8 (some "pending")
    (by decide) (by decide) rfl rfl (by decide) (by decide) (by decide) rfl

/-- C3 counterexample: the claim's "the response to the caller is a
client-error status" fails at concrete inputs.  The earlier revision
(`part_000`) answers HTTP 500 even for the provider SDK's canonical
signature-mismatch message, and `server.js` answers HTTP 500 for a
verification failure whose message does not contain `No signatures found`
(such as the SDK's malformed-header message) — in both cases the outcome is
`SignatureInvalid` but the response is a server error, so the provider treats
the failure as transient and redelivers. -/
theorem signature_rejection_counterexample :
    outcome (handleStripeWebhookV0
      (.error "No signatures found matching the expected signature for payload")
      demoBackend) = .SignatureInvalid ∧
    (handleStripeWebhookV0
      (.error "No signatures found matching the expected signature for payload")
      demoBackend).response =
      .errorStatus 500
        "Webhook Error: No signatures found matching the expected signature for payload" ∧
    isClientError ((handleStripeWebhookV0
      (.error "No signatures found matching the expected signature for payload")
      demoBackend).response) = false ∧
    outcome (handleStripeWebhook
      (.error "Unable to extract timestamp and signatures from header")
      demoBackend) = .SignatureInvalid ∧
    (handleStripeWebhook
      (.error "Unable to extract timestamp and signatures from header")
      demoBackend).response =
      .errorStatus 500
        "Webhook Error: Unable to extract timestamp and signatures from header" ∧
    isClientError ((handleStripeWebhook
      (.error "Unable to extract timestamp and signatures from header")
      demoBackend).response) = false := by
  decide

/-- C3 amended: for every payload whose signature verification throws (with
any error message), both revisions fail with `SignatureInvalid` — no backend
call is made, regardless of the payload's content.  The response status,
however, is not always a client error: `server.js` answers 400 exactly when
the verification error message contains `No signatures found` and 500
otherwise, and `part_000` always answers 500. -/
theorem signature_rejection_amended (msg : String) (b : WooBackend) :
    outcome (handleStripeWebhook (.error msg) b) = .SignatureInvalid ∧
    (handleStripeWebhook (.error msg) b).gets = [] ∧
    (handleStripeWebhook (.error msg) b).puts = [] ∧
    (handleStripeWebhook (.error msg) b).response =
      .errorStatus (if strIncludes msg "No signatures found" then 400 else 500)
        ("Webhook Error: " ++ msg) ∧
    outcome (handleStripeWebhookV0 (.error msg) b) = .SignatureInvalid ∧
    (handleStripeWebhookV0 (.error msg) b).gets = [] ∧
    (handleStripeWebhookV0 (.error msg) b).puts = [] ∧
    (handleStripeWebhookV0 (.error msg) b).response =
      .errorStatus 500 ("Webhook Error: " ++ msg) := by
  simp [handleStripeWebhook, handleStripeWebhookV0, outcome, webhookErrorCode]

/-- C4 counterexample: a verified `Completed/payment/paid` event whose
correlation token is `"-1"` does not parse to a positive `orderId`, yet the
guard `if (!orderId) break` only rejects a falsy parse (NaN or 0): the handler
proceeds, reads order `-1` and — the backend reporting it `pending` — writes
`processing` to it, so the outcome is `Settled` with one write rather than
`Ignored` with none. -/
theorem settlement_guard_counterexample :
    parseInt10 "-1" = some (-1) ∧ ¬(0 < (-1 : Int)) ∧
    outcome (handleStripeWebhook
      (.ok ⟨"checkout.session.completed", ⟨"-1", "payment", "paid"⟩⟩) demoBackend) =
      .Settled ∧
    (handleStripeWebhook
      (.ok ⟨"checkout.session.completed", ⟨"-1", "payment", "paid"⟩⟩) demoBackend).puts =
      [(-1, "processing")] := by
  decide

/-- C4 amended: for every verified `Completed` event, if the mode is not
`payment`, or the payment status is not `paid`, or the correlation token's
parse is falsy (`parseInt` yields NaN — modelled `none` — or 0), the outcome
is `Ignored` and no order-backend call is made.  A token parsing to a negative
integer, however, passes the guard. -/
theorem settlement_guard_amended (s : Session) (b : WooBackend)
    (h : s.mode ≠ "payment" ∨ s.payment_status ≠ "paid" ∨
         parseInt10 s.client_reference_id = none ∨
         parseInt10 s.client_reference_id = some 0) :
    outcome (handleStripeWebhook (.ok ⟨"checkout.session.completed", s⟩) b) = .Ignored ∧
    (handleStripeWebhook (.ok ⟨"checkout.session.completed", s⟩) b).gets = [] ∧
    (handleStripeWebhook (.ok ⟨"checkout.session.completed", s⟩) b).puts = [] := by
  cases hp : parseInt10 s.client_reference_id with
  | none => simp [handleStripeWebhook, hp, outcome]
  | some n =>
      by_cases hn : n = 0
      · simp [handleStripeWebhook, hp, hn, outcome]
      · have h' : s.mode ≠ "payment" ∨ s.payment_status ≠ "paid" := by
          rcases h with h | h | h | h
          · exact Or.inl h
          · exact Or.inr h
          · rw [hp] at h; cases h
          · rw [hp] at h
            exact absurd (Option.some.inj h) hn
        rcases h' with hm | hs
        · simp [handleStripeWebhook, hp, hn, hm, outcome]
        · simp [handleStripeWebhook, hp, hn, hs, outcome]

/-- Witness for the amended C4 at a concrete input (a completed `setup`-mode
session). -/
theorem settlement_guard_amended_witness :
    outcome (handleStripeWebhook
      (.ok ⟨"checkout.session.completed", ⟨"7", "setup", "paid"⟩⟩) demoBackend) = .Ignored ∧
    (handleStripeWebhook
      (.ok ⟨"checkout.session.completed", ⟨"7", "setup", "paid"⟩⟩) demoBackend).gets = [] ∧
    (handleStripeWebhook
      (.ok ⟨"checkout.session.completed", ⟨"7", "setup", "paid"⟩⟩) demoBackend).puts = [] :=
  settlement_guard_amended ⟨"7", "setup", "paid"⟩ demoBackend (Or.inl (by decide))

set_option maxRecDepth 4096 in
/-- C5 counterexample: the claim's "the caller is answered with a server-error
status so the provider retries" fails at a concrete input.  `wcGetOrder`
throws a message embedding up to 200 characters of the backend's response
body; when that body contains the substring `No signatures found`, the
`server.js` catch block matches it and answers HTTP 400 — a client error, so
the provider treats the delivery as permanently rejected instead of retrying —
even though the outcome is `ReconciliationFailed`. -/
theorem backend_failure_counterexample :
    outcome (handleStripeWebhook
      (.ok ⟨"checkout.session.completed", ⟨"7", "payment", "paid"⟩⟩) poisonBackend) =
      .ReconciliationFailed ∧
    (handleStripeWebhook
      (.ok ⟨"checkout.session.completed", ⟨"7", "payment", "paid"⟩⟩) poisonBackend).response =
      .errorStatus 400 "Webhook Error: Woo GET 7 failed: 502 No signatures found" ∧
    isServerError ((handleStripeWebhook
      (.ok ⟨"checkout.session.completed", ⟨"7", "payment", "paid"⟩⟩)
      poisonBackend).response) = false ∧
    (handleStripeWebhook
      (.ok ⟨"checkout.session.completed", ⟨"7", "payment", "paid"⟩⟩) poisonBackend).puts =
      [] := by
  decide

/-- C5 amended: for every verified `Completed/payment/paid` event with a
nonzero parsed `orderId`, if the backend read fails, or the read shows an
unsettled order and the write fails, the outcome is `ReconciliationFailed` in
both revisions; `part_000` always answers HTTP 500, while `server.js` answers
500 exactly when the thrown message (which embeds the backend's response body)
does not contain `No signatures found`, and 400 when it does. -/
theorem backend_failure_amended (s : Session) (b : WooBackend) (n : Int)
    (hp : parseInt10 s.client_reference_id = some n) (hn : 0 < n)
    (hm : s.mode = "payment") (hps : s.payment_status = "paid")
    (hfail : (∃ c body, b.getOrder n = .httpError c body) ∨
             (∃ st, b.getOrder n = .ok st ∧ st.getD "" ≠ "processing" ∧
                    st.getD "" ≠ "completed" ∧
                    ∃ c body, b.putStatus n "processing" = .putError c body)) :
    ∃ m, outcome (handleStripeWebhook (.ok ⟨"checkout.session.completed", s⟩) b) =
        .ReconciliationFailed ∧
      (handleStripeWebhook (.ok ⟨"checkout.session.completed", s⟩) b).response =
        .errorStatus (if strIncludes m "No signatures found" then 400 else 500)
          ("Webhook Error: " ++ m) ∧
      outcome (handleStripeWebhookV0 (.ok ⟨"checkout.session.completed", s⟩) b) =
        .ReconciliationFailed ∧
      (handleStripeWebhookV0 (.ok ⟨"checkout.session.completed", s⟩) b).response =
        .errorStatus 500 ("Webhook Error: " ++ m) := by
  have hne : n ≠ 0 := by omega
  rcases hfail with ⟨c, body, hg⟩ | ⟨st, hg, h1, h2, c, body, hw⟩
  · refine ⟨"Woo GET " ++ toString n ++ " failed: " ++ toString c ++ " " ++ body.take 200,
      ?_, ?_, ?_, ?_⟩ <;>
    simp [handleStripeWebhook, handleStripeWebhookV0, completedCore, wcGetOrder,
      hp, hm, hps, hne, hg, outcome, webhookErrorCode]
  · have hnor : ¬(st.getD "" = "processing" ∨ st.getD "" = "completed") := by
      simp [h1, h2]
    refine ⟨"Woo PUT " ++ toString n ++ " failed: " ++ toString c ++ " " ++ body.take 200,
      ?_, ?_, ?_, ?_⟩ <;>
    simp [handleStripeWebhook, handleStripeWebhookV0, completedCore, wcGetOrder,
      wcUpdateOrderStatus, hp, hm, hps, hne, hg, hnor, hw, outcome, webhookErrorCode]

/-- Witness for the amended C5 at a concrete input (a backend that is down
with a benign error body). -/
theorem backend_failure_amended_witness :
    ∃ m, outcome (handleStripeWebhook
        (.ok ⟨"checkout.session.completed", ⟨"7", "payment", "paid"⟩⟩) downBackend) =
        .ReconciliationFailed ∧
      (handleStripeWebhook
        (.ok ⟨"checkout.session.completed", ⟨"7", "payment", "paid"⟩⟩)
        downBackend).response =
        .errorStatus (if strIncludes m "No signatures found" then 400 else 500)
          ("Webhook Error: " ++ m) ∧
      outcome (handleStripeWebhookV0
        (.ok ⟨"checkout.session.completed", ⟨"7", "payment", "paid"⟩⟩) downBackend) =
        .ReconciliationFailed ∧
      (handleStripeWebhookV0
        (.ok ⟨"checkout.session.completed", ⟨"7", "payment", "paid"⟩⟩)
        downBackend).response =
        .errorStatus 500 ("Webhook Error: " ++ m) :=
  backend_failure_amended ⟨"7", "payment", "paid"⟩ downBackend 7
    (by decide) (by decide) rfl rfl
    (Or.inl ⟨503, "Service Unavailable", by decide⟩)

/-- C6 counterexample: `orderId = "-5"` parses to `-5`, which is not a
positive integer, yet the validation `if (!id || !Number.isInteger(id))` only
rejects a falsy or non-integer parse: the handler proceeds to the outbound
`stripe.checkout.sessions.create` call instead of failing with
`InvalidInput`. -/
theorem create_session_validation_counterexample :
    parseInt10 "-5" = some (-5) ∧ ¬(0 < (-5 : Int)) ∧
    isStripeCall (createCheckout true "https://app.example" ⟨"-5", some 100⟩) = true ∧
    createCheckout true "https://app.example" ⟨"-5", some 100⟩ ≠ .invalidOrderId ∧
    createCheckout true "https://app.example" ⟨"-5", some 100⟩ ≠ .invalidAmount := by
  decide

/-- C6 amended: for every call where the parse of `orderId` is falsy
(`parseInt` yields NaN — modelled `none` — or 0), or `amountMinorUnits` is not
a positive integer, `createCheckout` fails with `InvalidInput`
(`INVALID_ORDER_ID` or `INVALID_AMOUNT_JPY_INTEGER_REQUIRED`) before any
outbound call to the payment provider.  An `orderId` parsing to a negative
integer, however, passes validation. -/
theorem create_session_validation_amended (appBase : String) (body : CreateCheckoutBody)
    (h : parseInt10 body.orderId = none ∨ parseInt10 body.orderId = some 0 ∨
         body.amountJpy = none ∨ ∃ a, body.amountJpy = some a ∧ a ≤ 0) :
    (createCheckout true appBase body = .invalidOrderId ∨
      createCheckout true appBase body = .invalidAmount) ∧
    isStripeCall (createCheckout true appBase body) = false := by
  rcases h with h | h | h | ⟨a, ha, hle⟩
  · simp [createCheckout, h, isStripeCall]
  · simp [createCheckout, h, isStripeCall]
  · cases hp : parseInt10 body.orderId with
    | none => simp [createCheckout, hp, isStripeCall]
    | some n =>
        by_cases hn : n = 0 <;> simp [createCheckout, hp, hn, h, isStripeCall]
  · cases hp : parseInt10 body.orderId with
    | none => simp [createCheckout, hp, isStripeCall]
    | some n =>
        by_cases hn : n = 0 <;> simp [createCheckout, hp, hn, ha, hle, isStripeCall]

/-- Witness for the amended C6 at a concrete input (`orderId = "0"`). -/
theorem create_session_validation_amended_witness :
    (createCheckout true "https://app.example" ⟨"0", some 100⟩ = .invalidOrderId ∨
      createCheckout true "https://app.example" ⟨"0", some 100⟩ = .invalidAmount) ∧
    isStripeCall (createCheckout true "https://app.example" ⟨"0", some 100⟩) = false :=
  create_session_validation_amended "https://app.example" ⟨"0", some 100⟩
    (Or.inr (Or.inl (by decide)))

/-- C7: `createSession` idempotence — the idempotency token passed to the
provider is derived deterministically from `orderId` as `"order-" + orderId`
on every call, so two calls whose `orderId` parses to the same id carry the
same token; the provider deduplicates by that token (modelled from the spec as
a function `provider` from idempotency key to session id, since the
deduplication happens at the provider, which is not part of this repository),
hence both calls yield the same provider session id. -/
theorem create_session_idempotent (provider : String → String) (appBase : String)
    (b1 b2 : CreateCheckoutBody) (id : Int)
    (h1 : parseInt10 b1.orderId = some id) (h2 : parseInt10 b2.orderId = some id)
    (p1 p2 : CheckoutParams) (k1 k2 : String)
    (hc1 : createCheckout true appBase b1 = .stripeCall p1 k1)
    (hc2 : createCheckout true appBase b2 = .stripeCall p2 k2) :
    k1 = k2 ∧ k1 = "order-" ++ toString id ∧ provider k1 = provider k2 := by
  have key1 : k1 = "order-" ++ toString id := by
    by_cases hn : id = 0
    · subst hn; simp [createCheckout, h1] at hc1
    · cases ha : b1.amountJpy with
      | none => simp [createCheckout, h1, hn, ha] at hc1
      | some a =>
          by_cases hle : a ≤ 0
          · simp [createCheckout, h1, hn, ha, hle] at hc1
          · simp [createCheckout, h1, hn, ha, hle] at hc1
            exact hc1.2.symm
  have key2 : k2 = "order-" ++ toString id := by
    by_cases hn : id = 0
    · subst hn; simp [createCheckout, h2] at hc2
    · cases ha : b2.amountJpy with
      | none => simp [createCheckout, h2, hn, ha] at hc2
      | some a =>
          by_cases hle : a ≤ 0
          · simp [createCheckout, h2, hn, ha, hle] at hc2
          · simp [createCheckout, h2, hn, ha, hle] at hc2
            exact hc2.2.symm
  refine ⟨key1.trans key2.symm, key1, ?_⟩
  rw [key1, key2]

/-- The provider call issued for order 1042 at amount 5980 (used by the C7
witness). -/
def sessionParams1042 : CheckoutParams where
  mode := "payment"
  currency := "jpy"
  product_name := "Order #1042"
  unit_amount := 5980
  quantity := 1
  success_url := "https://app.example/payment/success?order=1042&cs=\x7bCHECKOUT_SESSION_ID\x7d"
  cancel_url := "https://app.example/payment/cancel?order=1042"
  client_reference_id := "1042"

set_option maxRecDepth 8192 in
/-- Witness for C7 at a concrete input (the spec's scenario: order 1042,
amount 5980). -/
theorem create_session_idempotent_witness :
    "order-1042" = "order-1042" ∧
    "order-1042" = "order-" ++ toString (1042 : Int) ∧
    (fun k => "cs_" ++ k) "order-1042" = (fun k => "cs_" ++ k) "order-1042" :=
  create_session_idempotent (fun k => "cs_" ++ k) "https://app.example"
    ⟨"1042", some 5980⟩ ⟨"1042", some 5980⟩ 1042 (by decide) (by decide)
    sessionParams1042 sessionParams1042 "order-1042" "order-1042"
    (by decide) (by decide)

/-- C8: forward compatibility — for every verified event whose type is
neither `checkout.session.completed` nor `checkout.session.expired`, both
revisions answer success with no order-backend call, and the outcome is
`Ignored`, never an error. -/
theorem unknown_event_ignored (e : StripeEvent) (b : WooBackend)
    (h1 : e.type ≠ "checkout.session.completed")
    (h2 : e.type ≠ "checkout.session.expired") :
    outcome (handleStripeWebhook (.ok e) b) = .Ignored ∧
    (handleStripeWebhook (.ok e) b).response = .received ∧
    (handleStripeWebhook (.ok e) b).gets = [] ∧
    (handleStripeWebhook (.ok e) b).puts = [] ∧
    outcome (handleStripeWebhookV0 (.ok e) b) = .Ignored ∧
    (handleStripeWebhookV0 (.ok e) b).response = .received ∧
    (handleStripeWebhookV0 (.ok e) b).gets = [] ∧
    (handleStripeWebhookV0 (.ok e) b).puts = [] := by
  simp [handleStripeWebhook, handleStripeWebhookV0, h1, h2, outcome]

/-- Witness for C8 at a concrete input (the spec's hypothetical
`payment_intent.created`). -/
theorem unknown_event_ignored_witness :
    outcome (handleStripeWebhook
      (.ok ⟨"payment_intent.created", ⟨"7", "payment", "paid"⟩⟩) demoBackend) = .Ignored ∧
    (handleStripeWebhook
      (.ok ⟨"payment_intent.created", ⟨"7", "payment", "paid"⟩⟩) demoBackend).response =
      .received ∧
    (handleStripeWebhook
      (.ok ⟨"payment_intent.created", ⟨"7", "payment", "paid"⟩⟩) demoBackend).gets = [] ∧
    (handleStripeWebhook
      (.ok ⟨"payment_intent.created", ⟨"7", "payment", "paid"⟩⟩) demoBackend).puts = [] ∧
    outcome (handleStripeWebhookV0
      (.ok ⟨"payment_intent.created", ⟨"7", "payment", "paid"⟩⟩) demoBackend) = .Ignored ∧
    (handleStripeWebhookV0
      (.ok ⟨"payment_intent.created", ⟨"7", "payment", "paid"⟩⟩) demoBackend).response =
      .received ∧
    (handleStripeWebhookV0
      (.ok ⟨"payment_intent.created", ⟨"7", "payment", "paid"⟩⟩) demoBackend).gets = [] ∧
    (handleStripeWebhookV0
      (.ok ⟨"payment_intent.created", ⟨"7", "payment", "paid"⟩⟩) demoBackend).puts = [] :=
  unknown_event_ignored ⟨"payment_intent.created", ⟨"7", "payment", "paid"⟩⟩ demoBackend
    (by decide) (by decide)

/-- Helper: the updates issued by the completed-case body are either none, or
exactly one `processing` write to an order whose freshly read status was
neither `processing` nor `completed`. -/
theorem completedCore_puts (f : String → Nat) (b : WooBackend) (n : Int) :
    (completedCore f b n).puts = [] ∨
    ∃ st, (completedCore f b n).puts = [(n, "processing")] ∧
      b.getOrder n = .ok st ∧ st.getD "" ≠ "processing" ∧ st.getD "" ≠ "completed" := by
  unfold completedCore wcGetOrder wcUpdateOrderStatus
  cases hg : b.getOrder n with
  | httpError c body => simp
  | ok st =>
      by_cases hst : st.getD "" = "processing" ∨ st.getD "" = "completed"
      · simp [hst]
      · push_neg at hst
        right
        refine ⟨st, ?_, rfl, hst.1, hst.2⟩
        have hst' : ¬(st.getD "" = "processing" ∨ st.getD "" = "completed") := by
          simp [hst.1, hst.2]
        cases hw : b.putStatus n "processing" <;> simp [hst']

/-- Helper: every run of the `server.js` webhook handler either issues no
update, or is the completed-case body run at some order id. -/
theorem handleStripeWebhook_cases (cr : Except String StripeEvent) (b : WooBackend) :
    (handleStripeWebhook cr b).puts = [] ∨
    ∃ n, handleStripeWebhook cr b = completedCore webhookErrorCode b n := by
  cases cr with
  | error msg => left; simp [handleStripeWebhook]
  | ok e =>
      by_cases ht : e.type = "checkout.session.completed"
      · cases hp : parseInt10 e.data_object.client_reference_id with
        | none => left; simp [handleStripeWebhook, ht, hp]
        | some n =>
            by_cases hn : n = 0
            · left; simp [handleStripeWebhook, ht, hp, hn]
            · by_cases hm : e.data_object.mode = "payment"
              · by_cases hps : e.data_object.payment_status = "paid"
                · right; exact ⟨n, by simp [handleStripeWebhook, ht, hp, hn, hm, hps]⟩
                · left; simp [handleStripeWebhook, ht, hp, hn, hm, hps]
              · left; simp [handleStripeWebhook, ht, hp, hn, hm]
      · by_cases ht2 : e.type = "checkout.session.expired"
        · left; simp [handleStripeWebhook, ht, ht2]
        · left; simp [handleStripeWebhook, ht, ht2]

/-- Helper: every run of the `part_000` webhook handler either issues no
update, or is the completed-case body run at some order id. -/
theorem handleStripeWebhookV0_cases (cr : Except String StripeEvent) (b : WooBackend) :
    (handleStripeWebhookV0 cr b).puts = [] ∨
    ∃ n, handleStripeWebhookV0 cr b = completedCore (fun _ => 500) b n := by
  cases cr with
  | error msg => left; simp [handleStripeWebhookV0]
  | ok e =>
      by_cases ht : e.type = "checkout.session.completed"
      · by_cases hm : e.data_object.mode = "payment"
        · by_cases hps : e.data_object.payment_status = "paid"
          · cases hp : parseInt10 e.data_object.client_reference_id with
            | none => left; simp [handleStripeWebhookV0, ht, hm, hps, hp]
            | some n =>
                by_cases hn : n = 0
                · left; simp [handleStripeWebhookV0, ht, hm, hps, hp, hn]
                · right; exact ⟨n, by simp [handleStripeWebhookV0, ht, hm, hps, hp, hn]⟩
          · left; simp [handleStripeWebhookV0, ht, hps]
        · left; simp [handleStripeWebhookV0, ht, hm]
      · by_cases ht2 : e.type = "checkout.session.expired"
        · left; simp [handleStripeWebhookV0, ht, ht2]
        · left; simp [handleStripeWebhookV0, ht, ht2]

/-- C9: forward-only transition invariant — for every handler input (any
event type, verified or not) and every backend state, each revision either
issues no status update at all, or issues exactly one update whose written
value is `processing`, to an order whose status it had just read back as
neither `processing` nor `completed`.  No order is ever transitioned backward
or out of \x7bprocessing, completed\x7d. -/
theorem forward_only_writes (cr : Except String StripeEvent) (b : WooBackend) :
    ((handleStripeWebhook cr b).puts = [] ∨
      ∃ n st, (handleStripeWebhook cr b).puts = [(n, "processing")] ∧
        b.getOrder n = .ok st ∧ st.getD "" ≠ "processing" ∧ st.getD "" ≠ "completed") ∧
    ((handleStripeWebhookV0 cr b).puts = [] ∨
      ∃ n st, (handleStripeWebhookV0 cr b).puts = [(n, "processing")] ∧
        b.getOrder n = .ok st ∧ st.getD "" ≠ "processing" ∧ st.getD "" ≠ "completed") := by
  constructor
  · rcases handleStripeWebhook_cases cr b with h | ⟨n, h⟩
    · exact Or.inl h
    · rw [h]
      rcases completedCore_puts webhookErrorCode b n with h' | ⟨st, h1, h2, h3, h4⟩
      · exact Or.inl h'
      · exact Or.inr ⟨n, st, h1, h2, h3, h4⟩
  · rcases handleStripeWebhookV0_cases cr b with h | ⟨n, h⟩
    · exact Or.inl h
    · rw [h]
      rcases completedCore_puts (fun _ => 500) b n with h' | ⟨st, h1, h2, h3, h4⟩
      · exact Or.inl h'
      · exact Or.inr ⟨n, st, h1, h2, h3, h4⟩

/-- Helper: the completed-case body does not depend on the enclosing catch
block's error-code policy except for the HTTP status code of the error
response. -/
theorem completedCore_code_irrel (f g : String → Nat) (b : WooBackend) (n : Int) :
    (completedCore f b n).gets = (completedCore g b n).gets ∧
    (completedCore f b n).puts = (completedCore g b n).puts ∧
    (completedCore f b n).logs = (completedCore g b n).logs ∧
    sansCode (completedCore f b n).response = sansCode (completedCore g b n).response ∧
    outcome (completedCore f b n) = outcome (completedCore g b n) := by
  unfold completedCore wcGetOrder wcUpdateOrderStatus
  cases hg : b.getOrder n with
  | httpError c body => simp [sansCode, outcome]
  | ok st =>
      by_cases hst : st.getD "" = "processing" ∨ st.getD "" = "completed"
      · simp [hst, sansCode, outcome]
      · cases hw : b.putStatus n "processing" <;> simp [hst, sansCode, outcome]

/-- C10: revision equivalence — for every verification result and every
order-backend state, the `src/server.js` handler and the earlier
`src/unnamed/part_000` revision issue the same backend reads, the same backend
writes, produce the same log lines, send the same response body, and have the
same outcome (in particular the same settlement decision), even though their
completed-case guards run in a different order; only the HTTP status code
chosen on the error path (erased here by `sansCode`) may differ. -/
theorem revision_equivalence (cr : Except String StripeEvent) (b : WooBackend) :
    (handleStripeWebhook cr b).gets = (handleStripeWebhookV0 cr b).gets ∧
    (handleStripeWebhook cr b).puts = (handleStripeWebhookV0 cr b).puts ∧
    (handleStripeWebhook cr b).logs = (handleStripeWebhookV0 cr b).logs ∧
    sansCode (handleStripeWebhook cr b).response =
      sansCode (handleStripeWebhookV0 cr b).response ∧
    outcome (handleStripeWebhook cr b) = outcome (handleStripeWebhookV0 cr b) := by
  cases cr with
  | error msg => simp [handleStripeWebhook, handleStripeWebhookV0, sansCode, outcome]
  | ok e =>
      by_cases ht : e.type = "checkout.session.completed"
      · cases hp : parseInt10 e.data_object.client_reference_id with
        | none =>
            simp [handleStripeWebhook, handleStripeWebhookV0, ht, hp, sansCode, outcome]
        | some n =>
            by_cases hn : n = 0
            · simp [handleStripeWebhook, handleStripeWebhookV0, ht, hp, hn, sansCode,
                outcome]
            · by_cases hm : e.data_object.mode = "payment"
              · by_cases hps : e.data_object.payment_status = "paid"
                · simpa [handleStripeWebhook, handleStripeWebhookV0, ht, hp, hn, hm, hps]
                    using completedCore_code_irrel webhookErrorCode (fun _ => 500) b n
                · simp [handleStripeWebhook, handleStripeWebhookV0, ht, hp, hn, hm, hps,
                    sansCode, outcome]
              · simp [handleStripeWebhook, handleStripeWebhookV0, ht, hp, hn, hm,
                  sansCode, outcome]
      · by_cases ht2 : e.type = "checkout.session.expired" <;>
          simp [handleStripeWebhook, handleStripeWebhookV0, ht, ht2, sansCode, outcome]

end Checkout
